import Mathlib

/-!
Verification development for the ESCatastroLib response-normalization and
entity-resolution layer.

The embedding translates the canonical model file
`src/escatastrolib/models/InfoCatastral.py` (classes `ParcelaCatastral` and
`MetaParcela`) together with the error classifier `comprobar_errores` from
`ESCatastroLib/utils/utils.py` into Lean.

Decoded JSON documents are modelled by the inductive `Json`; Python's dynamic
attribute and subscript operations are modelled by functions into
`Except PyErr`, where `PyErr` covers both the library's classified exceptions
(`ErrorServidorCatastro`, the classifier's raised business errors) and the
uncaught dynamic errors Python itself raises (`AttributeError`, `TypeError`,
`KeyError`, `IndexError`, `NameError`, decode errors).  The upstream HTTP
collaborators are modelled by an explicit deterministic environment `Env`
mapping request parameters to response bodies.  Mutation of `self` attributes
is modelled by explicit state passing: each staged private constructor takes
and returns the record of attributes set so far (fields are `Option`, `none`
meaning the Python attribute was never assigned).
-/

/-- Exact numbers for the embedding: an integer fraction kept unnormalized so
that every arithmetic step reduces structurally.  All numbers the code
manipulates are decimal literals from the service and sums and quotients of
them, whose denominators stay positive, which the comparison below assumes.
Equality of `PyNum` values is structural; every claim below compares values
produced by the same arithmetic expressions, for which structural equality
is exact. -/
structure PyNum where
  n : Int
  d : Int
  deriving Repr, DecidableEq

def PyNum.ofInt (i : Int) : PyNum := PyNum.mk i 1

def PyNum.add (a b : PyNum) : PyNum := PyNum.mk (a.n * b.d + b.n * a.d) (a.d * b.d)

def PyNum.mul (a b : PyNum) : PyNum := PyNum.mk (a.n * b.n) (a.d * b.d)

def PyNum.div (a b : PyNum) : PyNum := PyNum.mk (a.n * b.d) (a.d * b.n)

/-- `a < b` for fractions with positive denominators. -/
def PyNum.lt (a b : PyNum) : Bool := a.n * b.d < b.n * a.d

def pow10 : Nat → Int := fun k => (List.range k).foldl (fun a _ => a * 10) 1

/-- A decoded JSON document (what `json.loads` returns, and the dict produced
by `xmltodict.parse` for the geometry service).  Numbers are exact rationals:
the floats the code manipulates are small decimal literals for which float
and rational arithmetic agree, and every claim here compares values produced
by the same arithmetic expressions. -/
inductive Json where
  | null
  | str (s : String)
  | num (q : PyNum)
  | obj (fields : List (String × Json))
  | arr (elems : List Json)
  deriving Repr

mutual

def Json.decEq : (a b : Json) → Decidable (a = b)
  | .null, .null => isTrue rfl
  | .null, .str _ => isFalse (fun h => Json.noConfusion h)
  | .null, .num _ => isFalse (fun h => Json.noConfusion h)
  | .null, .obj _ => isFalse (fun h => Json.noConfusion h)
  | .null, .arr _ => isFalse (fun h => Json.noConfusion h)
  | .str _, .null => isFalse (fun h => Json.noConfusion h)
  | .str a, .str b =>
    if h : a = b then isTrue (by rw [h]) else isFalse (fun hh => h (Json.str.inj hh))
  | .str _, .num _ => isFalse (fun h => Json.noConfusion h)
  | .str _, .obj _ => isFalse (fun h => Json.noConfusion h)
  | .str _, .arr _ => isFalse (fun h => Json.noConfusion h)
  | .num _, .null => isFalse (fun h => Json.noConfusion h)
  | .num _, .str _ => isFalse (fun h => Json.noConfusion h)
  | .num a, .num b =>
    if h : a = b then isTrue (by rw [h]) else isFalse (fun hh => h (Json.num.inj hh))
  | .num _, .obj _ => isFalse (fun h => Json.noConfusion h)
  | .num _, .arr _ => isFalse (fun h => Json.noConfusion h)
  | .obj _, .null => isFalse (fun h => Json.noConfusion h)
  | .obj _, .str _ => isFalse (fun h => Json.noConfusion h)
  | .obj _, .num _ => isFalse (fun h => Json.noConfusion h)
  | .obj a, .obj b =>
    match Json.decEqF a b with
    | isTrue h => isTrue (by rw [h])
    | isFalse h => isFalse (fun hh => h (Json.obj.inj hh))
  | .obj _, .arr _ => isFalse (fun h => Json.noConfusion h)
  | .arr _, .null => isFalse (fun h => Json.noConfusion h)
  | .arr _, .str _ => isFalse (fun h => Json.noConfusion h)
  | .arr _, .num _ => isFalse (fun h => Json.noConfusion h)
  | .arr _, .obj _ => isFalse (fun h => Json.noConfusion h)
  | .arr a, .arr b =>
    match Json.decEqL a b with
    | isTrue h => isTrue (by rw [h])
    | isFalse h => isFalse (fun hh => h (Json.arr.inj hh))

def Json.decEqL : (a b : List Json) → Decidable (a = b)
  | [], [] => isTrue rfl
  | [], _ :: _ => isFalse (fun h => List.noConfusion h)
  | _ :: _, [] => isFalse (fun h => List.noConfusion h)
  | x :: xs, y :: ys =>
    match Json.decEq x y with
    | isTrue h1 =>
      match Json.decEqL xs ys with
      | isTrue h2 => isTrue (by rw [h1, h2])
      | isFalse h2 => isFalse (fun hh => h2 (List.cons.inj hh).2)
    | isFalse h1 => isFalse (fun hh => h1 (List.cons.inj hh).1)

def Json.decEqF : (a b : List (String × Json)) → Decidable (a = b)
  | [], [] => isTrue rfl
  | [], _ :: _ => isFalse (fun h => List.noConfusion h)
  | _ :: _, [] => isFalse (fun h => List.noConfusion h)
  | (k1, v1) :: xs, (k2, v2) :: ys =>
    if hk : k1 = k2 then
      match Json.decEq v1 v2 with
      | isTrue h1 =>
        match Json.decEqF xs ys with
        | isTrue h2 => isTrue (by rw [hk, h1, h2])
        | isFalse h2 => isFalse (fun hh => h2 (List.cons.inj hh).2)
      | isFalse h1 => isFalse (fun hh => h1 (congrArg Prod.snd (List.cons.inj hh).1))
    else isFalse (fun hh => hk (congrArg Prod.fst (List.cons.inj hh).1))

end

instance : DecidableEq Json := Json.decEq

/-- The errors a resolution can raise.  Classified library errors
(`ErrorServidorCatastro` with its message, the classifier's raised business
error carrying the upstream description, the two `ValueError`s of `__init__`,
the street / house-number failures of the address path) and the dynamic
Python errors the code can hit on unexpected document shapes. -/
inductive PyErr where
  | catastro (msg : String)
  | upstream (des : Json)
  | unsupportedRef
  | insufficient
  | valueErr (msg : String)
  | attributeErr
  | typeErr
  | indexErr
  | keyErr
  | nameErr (name : String)
  | houseNotFound (nums : List Json)
  | streetNotFound
  | xmlErr
  deriving Repr, DecidableEq

/-- Python `x is None` as the classifier tests it. -/
def Json.isNull : Json → Bool
  | .null => true
  | _ => false

/-- Python `x == 'k'` for a string literal: true only for that string,
false (no error) for every other shape. -/
def Json.eqStr : Json → String → Bool
  | .str s, k => s == k
  | _, _ => false

/-- Python `d.get(k)`: value if present (possibly an explicit `null`),
`None` if the key is missing, `AttributeError` if the receiver is not a
dict (including `None`). -/
def Json.getKeyD : Json → String → Except PyErr Json
  | .obj fs, k =>
    match fs.lookup k with
    | some v => .ok v
    | none => .ok .null
  | _, _ => .error .attributeErr

/-- Python `d.get(k, default)`. -/
def Json.getKeyDef : Json → String → Json → Except PyErr Json
  | .obj fs, k, dflt =>
    match fs.lookup k with
    | some v => .ok v
    | none => .ok dflt
  | _, _, _ => .error .attributeErr

/-- Python `d[k]` with a string key: `KeyError` when missing,
`TypeError` on non-dict receivers. -/
def Json.idxKey : Json → String → Except PyErr Json
  | .obj fs, k =>
    match fs.lookup k with
    | some v => .ok v
    | none => .error .keyErr
  | _, _ => .error .typeErr

/-- Python `x[i]` with an integer index: list indexing with `IndexError`,
string indexing yielding a one-character string, `KeyError` on dicts,
`TypeError` otherwise. -/
def Json.idxNat : Json → Nat → Except PyErr Json
  | .arr xs, n =>
    match xs.get? n with
    | some v => .ok v
    | none => .error .indexErr
  | .obj _, _ => .error .keyErr
  | .str s, n =>
    match s.toList.get? n with
    | some c => .ok (.str c.toString)
    | none => .error .indexErr
  | _, _ => .error .typeErr

/-- Python `k in x`: key membership for dicts, element membership for lists,
substring test for strings, `TypeError` otherwise. -/
def Json.hasMem (j : Json) (k : String) : Except PyErr Bool :=
  match j with
  | .obj fs => .ok (fs.any (fun p => p.1 = k))
  | .arr xs => .ok (xs.any (fun e => e.eqStr k))
  | .str s => .ok (decide ((s.splitOn k).length > 1))
  | _ => .error .typeErr

/-- Python `k in d.keys()`: `AttributeError` when the receiver has no
`keys` method. -/
def Json.keysHas (j : Json) (k : String) : Except PyErr Bool :=
  match j with
  | .obj fs => .ok (fs.any (fun p => p.1 = k))
  | _ => .error .attributeErr

/-- Python `list(d.values())`. -/
def Json.valuesList : Json → Except PyErr (List Json)
  | .obj fs => .ok (fs.map Prod.snd)
  | _ => .error .attributeErr

/-- Python iteration `for x in j`: lists yield elements, dicts yield their
keys, strings yield one-character strings, anything else is a `TypeError`. -/
def pyIter : Json → Except PyErr (List Json)
  | .arr xs => .ok xs
  | .obj fs => .ok (fs.map (fun p => Json.str p.1))
  | .str s => .ok (s.toList.map (fun c => Json.str c.toString))
  | _ => .error .typeErr

/-- Python `''.join(d.values())`: concatenates the values of a dict, all of
which must be strings. -/
def joinStrValues : Json → Except PyErr String
  | .obj fs =>
    fs.foldlM
      (fun acc p =>
        match p.2 with
        | .str s => .ok (acc ++ s)
        | _ => .error .typeErr)
      ""
  | _ => .error .attributeErr

/-- A chain of Python `.get(k)` calls. -/
def Json.getPath (j : Json) (ks : List String) : Except PyErr Json :=
  ks.foldlM Json.getKeyD j

/-- Python `.split` and the geometry code call string methods on the value:
`AttributeError` if it is not a string. -/
def asStr : Json → Except PyErr String
  | .str s => .ok s
  | _ => .error .attributeErr

/-- Python `x > 1` on a decoded value: only numbers compare with an int,
anything else is a `TypeError`. -/
def asNum : Json → Except PyErr PyNum
  | .num q => .ok q
  | _ => .error .typeErr

/-- The value of an unsigned digit string. -/
def natOfDigits (cs : List Char) : Nat :=
  cs.foldl (fun a c => a * 10 + (c.toNat - 48)) 0

/-- Leading and trailing whitespace stripping, as Python `float` applies to
its string argument. -/
def trimWs (cs : List Char) : List Char :=
  ((cs.dropWhile (fun c => c.isWhitespace)).reverse.dropWhile
    (fun c => c.isWhitespace)).reverse

/-- Decimal number parsing as Python `float` accepts it for the service's
plain decimal values: optional sign, integer digits, optional fractional
part (no exponent forms, which the service does not emit). -/
def parseDec (s : String) : Option PyNum :=
  let cs := trimWs s.toList
  let sgn : PyNum := if cs.head? = some '-' then PyNum.ofInt (-1) else PyNum.ofInt 1
  let cs := if cs.head? = some '-' ∨ cs.head? = some '+' then cs.drop 1 else cs
  let ip := cs.takeWhile (fun c => c.isDigit)
  let rest := cs.drop ip.length
  match rest with
  | [] => if ip.isEmpty then none else some (sgn.mul (PyNum.ofInt (natOfDigits ip)))
  | '.' :: fp =>
    if fp.all (fun c => c.isDigit) ∧ ¬(ip.isEmpty ∧ fp.isEmpty) then
      some (sgn.mul ((PyNum.ofInt (natOfDigits ip)).add
        ((PyNum.ofInt (natOfDigits fp)).div (PyNum.ofInt (pow10 fp.length)))))
    else none
  | _ => none

/-- Python `float(x)`: numbers pass through, strings are parsed
(`ValueError` when unparsable), everything else is a `TypeError`. -/
def pyFloat : Json → Except PyErr PyNum
  | .num q => .ok q
  | .str s =>
    match parseDec s with
    | some q => .ok q
    | none => .error (.valueErr s)
  | _ => .error .typeErr

/-- Python `range(n)` over a decoded value: the element count; the service
reports the counter as a JSON integer, modelled as a fraction with
denominator one (a non-integer is a `TypeError`, as `range` raises),
and a negative integer yields an empty range. -/
def pyRangeCount : Json → Except PyErr Nat
  | .num q => if q.d = 1 then .ok q.n.toNat else .error .typeErr
  | _ => .error .typeErr

/-- Truthiness of the classifier's result: `True` is truthy, the implicit
`None` of the fall-through return is falsy. -/
def truthyOpt : Option Bool → Bool
  | some b => b
  | none => false

/-- Truthiness of an optional string argument: `None` and `''` are falsy. -/
def truthyStr : Option String → Bool
  | none => false
  | some s => s ≠ ""

/-- Rendering of a value inside an f-string (the urban street descriptor
concatenation); the code only ever renders the string-valued `tv` and `nv`
fields, for which this is Python's own rendering. -/
def fstr : Json → String
  | .str s => s
  | .null => "None"
  | .num q => toString q.n
  | .obj _ => "dict"
  | .arr _ => "list"

/-- The description raised for the first error of an error list: the nested
`err` location is checked first, else the flat-list location
(`utils.comprobar_errores`, lines 23-26). -/
def lerr_message (lerr : Json) : Except PyErr Json := do
  let hasErr ← lerr.hasMem "err"
  if hasErr then
    (← (← lerr.idxKey "err").idxNat 0).idxKey "des"
  else
    (← lerr.idxNat 0).idxKey "des"

/-- The error classifier `comprobar_errores` (`ESCatastroLib/utils/utils.py`
lines 7-27).  Returns `some true` for Python's `return True`, `none` for the
implicit `None` of the fall-through when the envelope has no values, and
raises (throws) the classified business error when the first top-level value
carries an `lerr` field. -/
def comprobar_errores (respuesta : Json) : Except PyErr (Option Bool) := do
  let vs ← respuesta.valuesList
  match vs with
  | [] => pure none
  | v :: _ =>
    if !v.isNull then do
      let hasLerr ← v.keysHas "lerr"
      if hasLerr then do
        let lerr ← v.idxKey "lerr"
        let msg ← lerr_message lerr
        throw (PyErr.upstream msg)
      else
        pure (some true)
    else
      pure (some true)

/-- One constituent region of a parcel: description and surface, as decoded
(`__create_regions` stores the raw values). -/
structure Region where
  descripcion : Json
  superficie : Json
  deriving Repr, DecidableEq

/-- One boundary-ring point as the geometry code stores it: the raw coordinate
strings taken from the space-separated `gml:posList`. -/
structure Coord where
  x : String
  y : String
  deriving Repr, DecidableEq

/-- The attribute state of a `ParcelaCatastral` object.  A field is `none`
exactly when the Python attribute was never assigned. -/
structure Parcela where
  rc : Option String := none
  provincia : Option Json := none
  municipio : Option Json := none
  poligono : Option Json := none
  parcela : Option Json := none
  calle : Option String := none
  numero : Option Json := none
  url_croquis : Option String := none
  tipo : Option String := none
  antiguedad : Option Json := none
  uso : Option Json := none
  nombre_paraje : Option Json := none
  regiones : Option (List Region) := none
  centroide : Option (String × String) := none
  geometria : Option (List Coord) := none
  superficie_total : Option PyNum := none
  superficie_construida : Option PyNum := none
  superficie : Option PyNum := none
  deriving Repr, DecidableEq

/-- Modelled from the spec: the street-resolution collaborator `Calle`
(`Calle.py` is not under `src/`).  A successful construction carries the
normalized province / municipality / street-type / street-name fields the
address request then uses; failure signals "street not found". -/
structure CalleInfo where
  provincia : String
  municipio : String
  tipo_via : String
  calle : String
  deriving Repr, DecidableEq

/-- A transport response body: zero-length, non-decodable, or decoded JSON. -/
inductive Raw where
  | emptyBody
  | malformed
  | json (j : Json)
  deriving Repr, DecidableEq

/-- Python `json.loads(req.content)` with no surrounding `try`: decode
errors propagate. -/
def rawJson : Raw → Except PyErr Json
  | .json j => .ok j
  | _ => .error (.valueErr "JSONDecodeError")

/-- The deterministic upstream collaborators: descriptive-record lookups
keyed by their request parameters, the sketch-image redirect, the geometry
service keyed by identifier and reference system (`none` models a body
`xmltodict` cannot parse), and the street collaborator. -/
structure Env where
  dnprc : String → Raw
  dnppp : String → String → String → String → Raw
  dnploc : String → String → String → String → String → Nat × Raw
  croquis : String → String
  geografia : String → String → Option Json
  calleLookup : String → String → String → String → Except PyErr CalleInfo

/-- The keyword arguments of the two constructors. -/
structure ParcelaArgs where
  rc : Option String := none
  provincia : Option String := none
  municipio : Option String := none
  poligono : Option String := none
  parcela : Option String := none
  tipo_via : Option String := none
  calle : Option String := none
  numero : Option String := none
  deriving Repr, DecidableEq

/-- Modelled from the spec: the fixed enumerated set of supported coordinate
reference systems (`listar_sistemas_referencia` lives in the
`escatastrolib.utils` module that is not under `src/`); it contains the
default geodetic WGS84 EPSG code used throughout. -/
def listar_sistemas_referencia : List String :=
  ["EPSG:4326", "EPSG:4258", "EPSG:3857", "EPSG:25829", "EPSG:25830", "EPSG:25831"]

def vaciaMsg : String := "El servidor ha devuelto una respuesta vacia"

def noJsonMsg : String := "El servidor no devuelve un JSON. Mensaje en bruto:"

/-- The `AmbiguousIdentifier` failure of the single-entity paths. -/
def ambiguousErr : PyErr :=
  PyErr.catastro "Esta parcela tiene varias referencias catastrales. Usa un objeto MetaParcela."

/-- The ambiguity counter: `.get(key, dict()).get('control', dict()).get('cudnp', 1)`. -/
def cudnp_raw (info : Json) (key : String) : Except PyErr Json := do
  let c1 ← info.getKeyDef key (.obj [])
  let c2 ← c1.getKeyDef "control" (.obj [])
  c2.getKeyDef "cudnp" (.num (PyNum.ofInt 1))

/-- The ambiguity counter as the number the `> 1` comparison sees. -/
def cudnp_counter (info : Json) (key : String) : Except PyErr PyNum := do
  asNum (← cudnp_raw info key)

/-- `''.join(info.get(key).get('bico').get('bi').get('idbi').get('rc').values())`:
the canonical identifier re-derived from a payload. -/
def derive_rc (info : Json) (key : String) : Except PyErr String := do
  joinStrValues (← info.getPath [key, "bico", "bi", "idbi", "rc"])

/-- `__create_regions`: the urban and rustic variants extract regions from
structurally different nestings; a region whose variant tag matches neither
branch is skipped, and an unknown tag leaves the loop's iterator unbound. -/
def create_regions (tipo : String) (info : Json) : Except PyErr (List Region) := do
  let vs ← info.valuesList
  match vs with
  | [] => throw PyErr.indexErr
  | v :: _ => do
    let iter ←
      if tipo = "Urbano" then (← v.getKeyD "bico").getKeyD "lcons"
      else if tipo = "Rústico" then (← v.getKeyD "bico").getKeyD "lspr"
      else throw (PyErr.nameErr "iterator")
    let items ← pyIter iter
    items.foldlM
      (fun acc region => do
        if tipo = "Rústico" then
          let desc ← (← region.getKeyD "dspr").getKeyD "dcc"
          let sup ← (← region.getKeyD "dspr").getKeyD "ssp"
          pure (acc ++ [Region.mk desc sup])
        else if tipo = "Urbano" then
          let desc ← region.getKeyD "lcd"
          let sup ← (← region.getKeyD "dfcons").getKeyD "stl"
          pure (acc ++ [Region.mk desc sup])
        else pure acc)
      ([] : List Region)

/-- Python `s.split(' ')`: split on every single space, keeping empty
pieces, written structurally so that it evaluates. -/
def splitSp : List Char → List (List Char)
  | [] => [[]]
  | c :: rest =>
    let r := splitSp rest
    if c = ' ' then [] :: r
    else
      match r with
      | h :: t => (c :: h) :: t
      | [] => [[c]]

def pySplitSpace (s : String) : List String :=
  (splitSp s.toList).map (fun l => String.mk l)

/-- The geometry fields `__create_geometry` assigns. -/
structure GeoFields where
  centroide : String × String
  geometria : List Coord
  superficie_total : PyNum
  deriving Repr, DecidableEq

/-- `__create_geometry`: parse the reference point (x is the second value of
the space-separated pair, y the first), consume the flat `gml:posList`
two values at a time with the same axis order, and parse the reported area.
A body `xmltodict` cannot parse is fatal. -/
def create_geometry (raw : Option Json) : Except PyErr GeoFields := do
  match raw with
  | none => throw PyErr.xmlErr
  | some geometry => do
    let posJ ← geometry.getPath
      ["FeatureCollection", "member", "cp:CadastralParcel", "cp:referencePoint",
       "gml:Point", "gml:pos"]
    let pos ← asStr posJ
    let geoposition := pySplitSpace pos
    let cx ←
      match geoposition.get? 1 with
      | some s => pure s
      | none => throw PyErr.indexErr
    let cy ←
      match geoposition.get? 0 with
      | some s => pure s
      | none => throw PyErr.indexErr
    let plJ ← geometry.getPath
      ["FeatureCollection", "member", "cp:CadastralParcel", "cp:geometry",
       "gml:MultiSurface", "gml:surfaceMember", "gml:Surface", "gml:patches",
       "gml:PolygonPatch", "gml:exterior", "gml:LinearRing", "gml:posList", "#text"]
    let pl ← asStr plJ
    let parcel_geometry := pySplitSpace pl
    let geometria := (List.range (parcel_geometry.length / 2)).map
      (fun idx => Coord.mk (parcel_geometry.getD (2 * idx + 1) "")
                           (parcel_geometry.getD (2 * idx) ""))
    let avJ ← geometry.getPath
      ["FeatureCollection", "member", "cp:CadastralParcel", "cp:areaValue", "#text"]
    let st ← pyFloat avJ
    pure (GeoFields.mk (cx, cy) geometria st)

/-- The variant-specific attributes set by the urban / rustic branches of
`__create_from_rc`; `none` means the branch does not assign the attribute. -/
structure VariantFields where
  calle : Option String := none
  numero : Option Json := none
  antiguedad : Option Json := none
  uso : Option Json := none
  parcela : Option Json := none
  poligono : Option Json := none
  nombre_paraje : Option Json := none
  deriving Repr, DecidableEq

/-- The urban / rustic branch of `__create_from_rc` (lines 117-125): urban
composes the street descriptor from `tv` and `nv` with one space and reads
`pnp`, `ant`, `luso`; rustic reads `cpa`, `cpo`, `npa`. -/
def variant_fields (info : Json) (tipo : String) : Except PyErr VariantFields := do
  if tipo = "Urbano" then
    let tv ← info.getPath
      ["consulta_dnprcResult", "bico", "bi", "dt", "locs", "lous", "lourb", "dir", "tv"]
    let nv ← info.getPath
      ["consulta_dnprcResult", "bico", "bi", "dt", "locs", "lous", "lourb", "dir", "nv"]
    let pnp ← info.getPath
      ["consulta_dnprcResult", "bico", "bi", "dt", "locs", "lous", "lourb", "dir", "pnp"]
    let ant ← info.getPath ["consulta_dnprcResult", "bico", "bi", "debi", "ant"]
    let luso ← info.getPath ["consulta_dnprcResult", "bico", "bi", "debi", "luso"]
    pure { calle := some (fstr tv ++ " " ++ fstr nv), numero := some pnp,
           antiguedad := some ant, uso := some luso }
  else if tipo = "Rústico" then
    let cpa ← info.getPath
      ["consulta_dnprcResult", "bico", "bi", "dt", "locs", "lors", "lorus", "cpp", "cpa"]
    let cpo ← info.getPath
      ["consulta_dnprcResult", "bico", "bi", "dt", "locs", "lors", "lorus", "cpp", "cpo"]
    let npa ← info.getPath
      ["consulta_dnprcResult", "bico", "bi", "dt", "locs", "lors", "lorus", "npa"]
    pure { parcela := some cpa, poligono := some cpo, nombre_paraje := some npa }
  else pure {}

/-- Everything `__create_from_rc` computes after the identifier is
re-derived: in the source these are progressive attribute assignments, but
no step reads an attribute assigned by an earlier step (the variant tag and
the derived identifier are passed along explicitly here, as local values),
so they are collected and applied to the object at the end. -/
structure RestFields where
  municipio : Json
  provincia : Json
  tipo : String
  vf : VariantFields
  regiones : List Region
  geo : GeoFields
  superficie_construida : PyNum
  superficie : PyNum
  deriving Repr, DecidableEq

/-- Lines 112-131 of `__create_from_rc` after the ambiguity gate: re-derived
identifier aside, the descriptive fields, the variant classification
(`cn` equal to `'RU'` is rustic, anything else urban), the regions, the
geometry, and the two surface aliases, each the sum of the parsed region
surfaces. -/
def resolve_rest (env : Env) (info : Json) (projection : String) (rcNew : String) :
    Except PyErr RestFields := do
  let municipio ← info.getPath ["consulta_dnprcResult", "bico", "bi", "dt", "nm"]
  let provincia ← info.getPath ["consulta_dnprcResult", "bico", "bi", "dt", "np"]
  let cn ← info.getPath ["consulta_dnprcResult", "bico", "bi", "idbi", "cn"]
  let tipo := if cn.eqStr "RU" then "Rústico" else "Urbano"
  let vf ← variant_fields info tipo
  let regs ← create_regions tipo info
  let geo ← create_geometry (env.geografia rcNew projection)
  let sups ← regs.mapM (fun r => pyFloat r.superficie)
  let sc := sups.foldl PyNum.add (PyNum.ofInt 0)
  let sups2 ← regs.mapM (fun r => pyFloat r.superficie)
  let s2 := sups2.foldl PyNum.add (PyNum.ofInt 0)
  pure (RestFields.mk municipio provincia tipo vf regs geo sc s2)

/-- The full set of fields the error-free, unambiguous branch of
`__create_from_rc` assigns. -/
structure ResolvedFields where
  rcNew : String
  url : String
  rest : RestFields
  deriving Repr, DecidableEq

/-- The error-free branch of `__create_from_rc` (lines 107-131): the
ambiguity gate, the canonical identifier re-derivation, the sketch-image
URL, and the rest of the payload extraction. -/
def resolve_delta (env : Env) (info : Json) (projection : String) :
    Except PyErr ResolvedFields := do
  let cq ← cudnp_counter info "consulta_dnprcResult"
  if PyNum.lt (PyNum.ofInt 1) cq then
    throw ambiguousErr
  else do
    let rcNew ← derive_rc info "consulta_dnprcResult"
    let rest ← resolve_rest env info projection rcNew
    pure (ResolvedFields.mk rcNew (env.croquis rcNew) rest)

/-- Application of the computed fields to the object: exactly the attributes
the source assigns are overwritten; attributes the taken variant branch does
not assign keep their previous values. -/
def apply_resolved (self : Parcela) (d : ResolvedFields) : Parcela :=
  { self with
    rc := some d.rcNew
    url_croquis := some d.url
    municipio := some d.rest.municipio
    provincia := some d.rest.provincia
    tipo := some d.rest.tipo
    calle := match d.rest.vf.calle with | some v => some v | none => self.calle
    numero := match d.rest.vf.numero with | some v => some v | none => self.numero
    antiguedad := match d.rest.vf.antiguedad with | some v => some v | none => self.antiguedad
    uso := match d.rest.vf.uso with | some v => some v | none => self.uso
    parcela := match d.rest.vf.parcela with | some v => some v | none => self.parcela
    poligono := match d.rest.vf.poligono with | some v => some v | none => self.poligono
    nombre_paraje :=
      match d.rest.vf.nombre_paraje with | some v => some v | none => self.nombre_paraje
    regiones := some d.rest.regiones
    centroide := some d.rest.geo.centroide
    geometria := some d.rest.geo.geometria
    superficie_total := some d.rest.geo.superficie_total
    superficie_construida := some d.rest.superficie_construida
    superficie := some d.rest.superficie }

/-- `ParcelaCatastral.__create_from_rc` (lines 96-133): empty body and
non-JSON body are classified failures; an envelope whose classifier check
neither raises nor returns `True` falls through, returning the object
unchanged. -/
def create_from_rc (env : Env) (self : Parcela) (rc : String) (projection : String) :
    Except PyErr Parcela :=
  match env.dnprc rc with
  | Raw.emptyBody => throw (PyErr.catastro vaciaMsg)
  | Raw.malformed => throw (PyErr.catastro noJsonMsg)
  | Raw.json info => do
    let chk ← comprobar_errores info
    if truthyOpt chk then do
      let d ← resolve_delta env info projection
      pure (apply_resolved self d)
    else
      pure self

/-- `ParcelaCatastral.__create_from_parcel` (lines 135-158).  Note the
source's `except` handler names `req1`, which is unbound in this method, so
a non-JSON body ends in a `NameError`. -/
def create_from_parcel (env : Env) (self : Parcela)
    (provincia municipio poligono parcela : String) (projection : String) :
    Except PyErr Parcela :=
  match env.dnppp provincia municipio poligono parcela with
  | Raw.emptyBody => throw (PyErr.catastro vaciaMsg)
  | Raw.malformed => throw (PyErr.nameErr "req1")
  | Raw.json info => do
    let chk ← comprobar_errores info
    if truthyOpt chk then do
      let cq ← cudnp_counter info "consulta_dnpppResult"
      if PyNum.lt (PyNum.ofInt 1) cq then
        throw ambiguousErr
      else do
        let rcNew ← derive_rc info "consulta_dnpppResult"
        create_from_rc env { self with rc := some rcNew } rcNew projection
    else
      pure self

/-- The condition of line 181: `req.status_code == 200 and
len(req.content) > 0 and comprobar_errores(req.json())`, with Python's
short-circuit evaluation (a non-decodable body makes `req.json()` raise). -/
def addr_cond (status : Nat) (raw : Raw) : Except PyErr Bool := do
  if status ≠ 200 then pure false
  else
    match raw with
    | Raw.emptyBody => pure false
    | Raw.malformed => throw (PyErr.valueErr "JSONDecodeError")
    | Raw.json j => do
      let chk ← comprobar_errores j
      pure (truthyOpt chk)

/-- The `elif`/`else` (lines 196-200): re-decode the body, look for error
code `'43'` ("house number not found") and raise it with the valid house
numbers the service reports, otherwise raise the empty-response failure. -/
def addr_elif (raw : Raw) : Except PyErr Parcela := do
  let parsed ← rawJson raw
  let v ← parsed.getKeyD "consulta_dnplocResult"
  let hasLerr ← v.hasMem "lerr"
  if hasLerr then do
    let cod ← (← (← (← parsed.idxKey "consulta_dnplocResult").idxKey "lerr").idxNat 0).idxKey "cod"
    if cod.eqStr "43" then do
      let nump ← (← (← parsed.getKeyD "consulta_dnplocResult").getKeyD "numerero").getKeyD "nump"
      let items ← pyIter nump
      let nums ← items.mapM (fun n => do (← n.getKeyD "num").getKeyD "pnp")
      throw (PyErr.houseNotFound nums)
    else
      throw (PyErr.catastro vaciaMsg)
  else
    throw (PyErr.catastro vaciaMsg)

/-- `ParcelaCatastral.__create_from_address` (lines 160-204).  On the
success branch the source decodes `req1.content`, but `req1` is unbound in
this method: the bare `except` catches the `NameError` and its handler's
message again evaluates `req1.content`, so the `NameError` escapes before
any identifier is extracted. -/
def create_from_address (env : Env) (_self : Parcela)
    (provincia municipio tipo_via calle numero : String) (_projection : String) :
    Except PyErr Parcela := do
  let info_calle ← env.calleLookup provincia municipio tipo_via calle
  let sr := env.dnploc info_calle.provincia info_calle.municipio info_calle.tipo_via
    info_calle.calle numero
  let cond ← addr_cond sr.1 sr.2
  if cond then
    throw (PyErr.nameErr "req1")
  else
    addr_elif sr.2

/-- `ParcelaCatastral.__init__` (lines 206-225): the reference-system gate,
then the three mutually exclusive input groups in priority order, each
presetting its input attributes before delegating; no group fully supplied
is a `ValueError`. -/
def parcela_init (env : Env) (a : ParcelaArgs) (projection : String) :
    Except PyErr Parcela :=
  if projection ∉ listar_sistemas_referencia then
    throw PyErr.unsupportedRef
  else if truthyStr a.rc then
    let rcv := a.rc.getD ""
    create_from_rc env { rc := some rcv } rcv projection
  else if truthyStr a.provincia ∧ truthyStr a.municipio ∧ truthyStr a.poligono ∧
      truthyStr a.parcela then
    create_from_parcel env
      { provincia := some (Json.str (a.provincia.getD ""))
        municipio := some (Json.str (a.municipio.getD ""))
        poligono := some (Json.str (a.poligono.getD ""))
        parcela := some (Json.str (a.parcela.getD "")) }
      (a.provincia.getD "") (a.municipio.getD "") (a.poligono.getD "") (a.parcela.getD "")
      projection
  else if truthyStr a.provincia ∧ truthyStr a.municipio ∧ truthyStr a.tipo_via ∧
      truthyStr a.calle ∧ truthyStr a.numero then
    create_from_address env
      { provincia := some (Json.str (a.provincia.getD ""))
        municipio := some (Json.str (a.municipio.getD ""))
        calle := a.calle
        numero := some (Json.str (a.numero.getD "")) }
      (a.provincia.getD "") (a.municipio.getD "") (a.tipo_via.getD "") (a.calle.getD "")
      (a.numero.getD "") projection
  else
    throw PyErr.insufficient

/-- The attribute state of a `MetaParcela` object. -/
structure Meta where
  rc : Option String := none
  provincia : Option String := none
  municipio : Option String := none
  poligono : Option String := none
  parcela : Option String := none
  calle : Option String := none
  numero : Option String := none
  parcelas : Option (List Parcela) := none
  deriving Repr, DecidableEq

/-- One identifier of the umbrella list:
`info.get(key).get('lrcdnp').get('rcdnp')[idx].get('rc').values()` joined. -/
def meta_rc_at (info : Json) (key : String) (idx : Nat) : Except PyErr String := do
  let l ← (← (← info.getKeyD key).getKeyD "lrcdnp").getKeyD "rcdnp"
  let item ← l.idxNat idx
  joinStrValues (← item.getKeyD "rc")

/-- `MetaParcela.__create_from_rc` (lines 512-526).  The loop recomputes the
local `rc` once per reported identifier, but the `append` sits outside the
loop body, so a single `ParcelaCatastral` — built from the last identifier
(or from the method's own argument when the range is empty) — is appended. -/
def meta_create_from_rc (env : Env) (self : Meta) (rc : String) : Except PyErr Meta :=
  match env.dnprc rc with
  | Raw.emptyBody => throw (PyErr.catastro vaciaMsg)
  | Raw.malformed => throw (PyErr.valueErr "JSONDecodeError")
  | Raw.json info => do
    let chk ← comprobar_errores info
    if truthyOpt chk then do
      let n ← pyRangeCount (← cudnp_raw info "consulta_dnprcResult")
      let rcFinal ← (List.range n).foldlM
        (fun _cur idx => meta_rc_at info "consulta_dnprcResult" idx) rc
      let p ← parcela_init env { rc := some rcFinal } "EPSG:4326"
      pure { self with parcelas := some [p] }
    else
      pure self

/-- `MetaParcela.__create_from_parcel` (lines 529-547): one resolved parcel
appended per reported identifier, in response order. -/
def meta_create_from_parcel (env : Env) (self : Meta)
    (provincia municipio poligono parcela : String) : Except PyErr Meta :=
  match env.dnppp provincia municipio poligono parcela with
  | Raw.emptyBody => throw (PyErr.catastro vaciaMsg)
  | Raw.malformed => throw (PyErr.valueErr "JSONDecodeError")
  | Raw.json info => do
    let chk ← comprobar_errores info
    if truthyOpt chk then do
      let n ← pyRangeCount (← cudnp_raw info "consulta_dnpppResult")
      let ps ← (List.range n).foldlM
        (fun acc idx => do
          let rcI ← meta_rc_at info "consulta_dnpppResult" idx
          let p ← parcela_init env { rc := some rcI } "EPSG:4326"
          pure (acc ++ [p]))
        ([] : List Parcela)
      pure { self with parcelas := some ps }
    else
      pure self

/-- `MetaParcela.__create_from_address` (lines 549-581): same gate as the
single-entity address path, then one resolved parcel per reported
identifier. -/
def meta_create_from_address (env : Env) (self : Meta)
    (provincia municipio tipo_via calle numero : String) : Except PyErr Meta := do
  let info_calle ← env.calleLookup provincia municipio tipo_via calle
  let sr := env.dnploc info_calle.provincia info_calle.municipio info_calle.tipo_via
    info_calle.calle numero
  let cond ← addr_cond sr.1 sr.2
  if cond then do
    let info ← rawJson sr.2
    let n ← pyRangeCount (← cudnp_raw info "consulta_dnplocResult")
    let ps ← (List.range n).foldlM
      (fun acc idx => do
        let rcI ← meta_rc_at info "consulta_dnplocResult" idx
        let p ← parcela_init env { rc := some rcI } "EPSG:4326"
        pure (acc ++ [p]))
      ([] : List Parcela)
    pure { self with parcelas := some ps }
  else
    throw (PyErr.catastro vaciaMsg)

/-- `MetaParcela.__init__` (lines 583-600): the same three input groups in
the same priority order — and no reference-system parameter at all. -/
def meta_init (env : Env) (a : ParcelaArgs) : Except PyErr Meta :=
  if truthyStr a.rc then
    meta_create_from_rc env { rc := a.rc } (a.rc.getD "")
  else if truthyStr a.provincia ∧ truthyStr a.municipio ∧ truthyStr a.poligono ∧
      truthyStr a.parcela then
    meta_create_from_parcel env
      { provincia := a.provincia, municipio := a.municipio, poligono := a.poligono,
        parcela := a.parcela }
      (a.provincia.getD "") (a.municipio.getD "") (a.poligono.getD "") (a.parcela.getD "")
  else if truthyStr a.provincia ∧ truthyStr a.municipio ∧ truthyStr a.tipo_via ∧
      truthyStr a.calle ∧ truthyStr a.numero then
    meta_create_from_address env
      { provincia := a.provincia, municipio := a.municipio, calle := a.calle,
        numero := a.numero }
      (a.provincia.getD "") (a.municipio.getD "") (a.tipo_via.getD "") (a.calle.getD "")
      (a.numero.getD "")
  else
    throw PyErr.insufficient

def dummyCoord : Coord := Coord.mk "" ""

/-- The loop body of `distancias_aristas` (lines 227-243): for index 0 the
previous point is the last one, otherwise the one before; one distance per
index of the ring.  The helpers `lat_lon_from_coords_dict` and
`distancia_entre_dos_puntos_geograficos` live in the `escatastrolib.utils`
module that is not under `src/`; their composition is the explicit `dist`
argument, so every theorem below holds for whatever geographic distance
they compute. -/
def edge_list (dist : Coord → Coord → PyNum) (g : List Coord) : List PyNum :=
  (List.range g.length).map
    (fun idx =>
      let idx0 := if idx = 0 then g.length - 1 else idx - 1
      dist (g.getD idx0 dummyCoord) (g.getD idx dummyCoord))

/-- The `distancias_aristas` property: one great-circle distance per
adjacent pair of boundary points; `None` when the ring is empty. -/
def distancias_aristas (dist : Coord → Coord → PyNum) (p : Parcela) :
    Except PyErr (Option (List PyNum)) :=
  match p.geometria with
  | none => .error .attributeErr
  | some g =>
    if g.length = 0 then .ok none
    else .ok (some (edge_list dist g))

/-- The `perimetro` property (lines 245-254): the sum of the edge distances,
`None` when they are `None` (or an empty list). -/
def perimetro (dist : Coord → Coord → PyNum) (p : Parcela) :
    Except PyErr (Option PyNum) := do
  let distancias ← distancias_aristas dist p
  match distancias with
  | none => pure none
  | some ds =>
    if ds.length = 0 then pure none else pure (some (ds.foldl PyNum.add (PyNum.ofInt 0)))

instance {e a : Type} [DecidableEq e] [DecidableEq a] : DecidableEq (Except e a) := fun x y =>
  match x, y with
  | .ok u, .ok v =>
    if h : u = v then isTrue (by rw [h]) else isFalse (fun hh => h (Except.ok.inj hh))
  | .ok _, .error _ => isFalse (fun hh => Except.noConfusion hh)
  | .error _, .ok _ => isFalse (fun hh => Except.noConfusion hh)
  | .error u, .error v =>
    if h : u = v then isTrue (by rw [h]) else isFalse (fun hh => h (Except.error.inj hh))

/-- A well-formed urban `Consulta_DNPRC` envelope whose `rc` components join
to the two given pieces. -/
def urbEnvFor (p1 p2 : String) : Json :=
  Json.obj [("consulta_dnprcResult", Json.obj [
    ("control", Json.obj [("cudnp", Json.num (PyNum.ofInt 1))]),
    ("bico", Json.obj [
      ("bi", Json.obj [
        ("idbi", Json.obj [("rc", Json.obj [("pc1", Json.str p1), ("pc2", Json.str p2)]),
                           ("cn", Json.str "UR")]),
        ("dt", Json.obj [("nm", Json.str "MADRID"), ("np", Json.str "MADRID"),
          ("locs", Json.obj [("lous", Json.obj [("lourb", Json.obj [("dir", Json.obj [
            ("tv", Json.str "CL"), ("nv", Json.str "GRAN VIA"),
            ("pnp", Json.str "1")])])])])]),
        ("debi", Json.obj [("ant", Json.str "1950"), ("luso", Json.str "Residencial")])]),
      ("lcons", Json.arr [Json.obj [("lcd", Json.str "VIVIENDA"),
        ("dfcons", Json.obj [("stl", Json.str "40")])]])])])]

/-- A well-formed geometry document: reference point, a three-point ring,
and a reported area of 100.5 square meters. -/
def geoDoc : Json :=
  Json.obj [("FeatureCollection", Json.obj [("member", Json.obj [("cp:CadastralParcel",
    Json.obj [
      ("cp:referencePoint", Json.obj [("gml:Point", Json.obj [("gml:pos",
        Json.str "40.0 -3.7")])]),
      ("cp:geometry", Json.obj [("gml:MultiSurface", Json.obj [("gml:surfaceMember",
        Json.obj [("gml:Surface", Json.obj [("gml:patches", Json.obj [("gml:PolygonPatch",
        Json.obj [("gml:exterior", Json.obj [("gml:LinearRing", Json.obj [("gml:posList",
        Json.obj [("#text", Json.str "0 0 0 1 1 1")])])])])])])])])]),
      ("cp:areaValue", Json.obj [("#text", Json.str "100.5")])])])])]

/-- A service environment with one well-formed urban parcel under the
identifier `RC1`. -/
def envW : Env :=
  { dnprc := fun rc => if rc = "RC1" then Raw.json (urbEnvFor "RC" "1") else Raw.emptyBody
    dnppp := fun _ _ _ _ => Raw.emptyBody
    dnploc := fun _ _ _ _ _ => (200, Raw.emptyBody)
    croquis := fun rc => "https://croquis/" ++ rc
    geografia := fun rc proj =>
      if rc = "RC1" ∧ proj = "EPSG:4326" then some geoDoc else none
    calleLookup := fun _ _ _ _ => Except.error PyErr.streetNotFound }

/-- The parcel `envW` resolves for `RC1`. -/
def pW : Parcela :=
  { rc := some "RC1"
    provincia := some (Json.str "MADRID")
    municipio := some (Json.str "MADRID")
    calle := some "CL GRAN VIA"
    numero := some (Json.str "1")
    url_croquis := some "https://croquis/RC1"
    tipo := some "Urbano"
    antiguedad := some (Json.str "1950")
    uso := some (Json.str "Residencial")
    regiones := some [Region.mk (Json.str "VIVIENDA") (Json.str "40")]
    centroide := some ("-3.7", "40.0")
    geometria := some [Coord.mk "0" "0", Coord.mk "1" "0", Coord.mk "1" "1"]
    superficie_total := some (PyNum.mk 1005 10)
    superficie_construida := some (PyNum.mk 40 1)
    superficie := some (PyNum.mk 40 1) }



/-- An environment whose `Consulta_DNPRC` lookup answers every identifier
with the decoded envelope of the literal body `{}` — the shape the error
classifier neither raises on nor confirms. -/
def envEmptyObj : Env :=
  { dnprc := fun _ => Raw.json (Json.obj [])
    dnppp := fun _ _ _ _ => Raw.emptyBody
    dnploc := fun _ _ _ _ _ => (200, Raw.emptyBody)
    croquis := fun rc => "https://croquis/" ++ rc
    geografia := fun _ _ => none
    calleLookup := fun _ _ _ _ => Except.error PyErr.streetNotFound }

/-- An address-lookup environment: the street resolves, and the
`Consulta_DNPLOC` response is error-free (status 200, non-empty) with
ambiguity counter 2. -/
def envLocAmb : Env :=
  { dnprc := fun _ => Raw.emptyBody
    dnppp := fun _ _ _ _ => Raw.emptyBody
    dnploc := fun _ _ _ _ _ => (200, Raw.json (Json.obj [("consulta_dnplocResult",
      Json.obj [("control", Json.obj [("cudnp", Json.num (PyNum.ofInt 2))])])]))
    croquis := fun rc => "https://croquis/" ++ rc
    geografia := fun _ _ => none
    calleLookup := fun _ _ _ _ => Except.ok (CalleInfo.mk "MADRID" "MADRID" "CL" "GRAN VIA") }

/-- An address-lookup environment: the street resolves, and the
`Consulta_DNPLOC` response is error-free with ambiguity counter 1 and an
umbrella-list (`lrcdnp`) success shape naming the identifier `RC1`, which
`envLoc1.dnprc` resolves as in `envW`. -/
def envLoc1 : Env :=
  { dnprc := fun rc => if rc = "RC1" then Raw.json (urbEnvFor "RC" "1") else Raw.emptyBody
    dnppp := fun _ _ _ _ => Raw.emptyBody
    dnploc := fun _ _ _ _ _ => (200, Raw.json (Json.obj [("consulta_dnplocResult",
      Json.obj [("control", Json.obj [("cudnp", Json.num (PyNum.ofInt 1))]),
        ("lrcdnp", Json.obj [("rcdnp", Json.arr [Json.obj [("rc",
          Json.obj [("pc1", Json.str "RC"), ("pc2", Json.str "1")])]])])])]))
    croquis := fun rc => "https://croquis/" ++ rc
    geografia := fun rc proj =>
      if rc = "RC1" ∧ proj = "EPSG:4326" then some geoDoc else none
    calleLookup := fun _ _ _ _ => Except.ok (CalleInfo.mk "MADRID" "MADRID" "CL" "GRAN VIA") }

/-- A `Consulta_DNPRC` envelope reporting ambiguity counter 2 with an
umbrella list naming the identifiers `A1` and `B2`. -/
def metaEnvDoc : Json :=
  Json.obj [("consulta_dnprcResult", Json.obj [
    ("control", Json.obj [("cudnp", Json.num (PyNum.ofInt 2))]),
    ("lrcdnp", Json.obj [("rcdnp", Json.arr [
      Json.obj [("rc", Json.obj [("p1", Json.str "A"), ("p2", Json.str "1")])],
      Json.obj [("rc", Json.obj [("p1", Json.str "B"), ("p2", Json.str "2")])]])])])]

/-- A collection environment: the umbrella identifier `META` answers with
`metaEnvDoc`, and both listed identifiers resolve as well-formed urban
parcels. -/
def envMeta : Env :=
  { dnprc := fun rc =>
      if rc = "META" then Raw.json metaEnvDoc
      else if rc = "A1" then Raw.json (urbEnvFor "A" "1")
      else if rc = "B2" then Raw.json (urbEnvFor "B" "2")
      else Raw.emptyBody
    dnppp := fun _ _ _ _ => Raw.emptyBody
    dnploc := fun _ _ _ _ _ => (200, Raw.emptyBody)
    croquis := fun rc => "https://croquis/" ++ rc
    geografia := fun rc proj =>
      if (rc = "A1" ∨ rc = "B2") ∧ proj = "EPSG:4326" then some geoDoc else none
    calleLookup := fun _ _ _ _ => Except.error PyErr.streetNotFound }

/-- A polygon-coordinate environment: the `Consulta_DNPPP` lookup is
unambiguous and names the identifier `U1`, whose descriptive record then
classifies as Urban. -/
def envPppUrb : Env :=
  { dnprc := fun rc => if rc = "U1" then Raw.json (urbEnvFor "U" "1") else Raw.emptyBody
    dnppp := fun _ _ _ _ => Raw.json (Json.obj [("consulta_dnpppResult", Json.obj [
      ("control", Json.obj [("cudnp", Json.num (PyNum.ofInt 1))]),
      ("bico", Json.obj [("bi", Json.obj [("idbi", Json.obj [("rc",
        Json.obj [("p1", Json.str "U"), ("p2", Json.str "1")])])])])])])
    dnploc := fun _ _ _ _ _ => (200, Raw.emptyBody)
    croquis := fun rc => "https://croquis/" ++ rc
    geografia := fun rc proj =>
      if rc = "U1" ∧ proj = "EPSG:4326" then some geoDoc else none
    calleLookup := fun _ _ _ _ => Except.error PyErr.streetNotFound }

theorem ok_bind {a b : Type} (x : a) (f : a → Except PyErr b) :
    (Except.ok x >>= f) = f x := rfl

theorem error_bind {a b : Type} (e : PyErr) (f : a → Except PyErr b) :
    ((Except.error e : Except PyErr a) >>= f) = (Except.error e : Except PyErr b) := rfl

theorem pure_eq_ok {a : Type} (x : a) : (pure x : Except PyErr a) = Except.ok x := rfl

theorem throw_eq_error {a : Type} (e : PyErr) :
    (throw e : Except PyErr a) = Except.error e := rfl

/-- Peeling one monadic step off a successful run. -/
theorem bind_ok {a b : Type} {e : Except PyErr a} {f : a → Except PyErr b} {y : b}
    (h : (e >>= f) = Except.ok y) : ∃ x, e = Except.ok x ∧ f x = Except.ok y := by
  cases e with
  | error er => rw [error_bind] at h; exact absurd h (by simp)
  | ok x => exact ⟨x, rfl, by rw [ok_bind] at h; exact h⟩

/-- C1. In the canonical source the address strategy cannot reach its
ambiguity gate: once the `Consulta_DNPLOC` response passes the error check
(here with ambiguity counter 2), line 183 decodes `req1.content` where only
`req` is bound, and the handler of the bare `except` evaluates `req1` again,
so the lookup dies with an uncaught `NameError` instead of the
`AmbiguousIdentifier` failure the identifier and polygon strategies raise
(and that §4.2 step 3 prescribes for all three). -/
theorem c1_address_ambiguity_namerror :
    parcela_init envLocAmb
      { provincia := some "MADRID", municipio := some "MADRID", tipo_via := some "CL",
        calle := some "GRAN VIA", numero := some "99" } "EPSG:4326" =
      Except.error (PyErr.nameErr "req1") ∧
    PyErr.nameErr "req1" ≠ ambiguousErr := by
  exact ⟨rfl, by decide⟩

/-- C2. The collection built from an umbrella identifier whose response
reports ambiguity counter 2: `MetaParcela.__create_from_rc` keeps its
`append` outside the identifier loop, so the resulting collection holds
exactly one parcel — the one of the last listed identifier — not one per
identifier. -/
theorem c2_meta_rc_cardinality :
    (meta_init envMeta { rc := some "META" }).map
        (fun m => (m.parcelas.getD []).map Parcela.rc) =
      Except.ok [some "B2"] ∧
    cudnp_raw metaEnvDoc "consulta_dnprcResult" = Except.ok (Json.num (PyNum.ofInt 2)) := by
  exact ⟨rfl, rfl⟩

/-- C3. A decoded envelope on which the error classifier neither raises nor
confirms a payload (the body `{}`): the single-entity construction returns
successfully with only the caller-supplied identifier set and every payload
field unassigned — a partially-initialized object escapes to the caller
instead of one classified error. -/
theorem c3_partial_object_escapes :
    parcela_init envEmptyObj { rc := some "XX" } "EPSG:4326" =
      Except.ok { rc := some "XX" } ∧
    ({ rc := some "XX" } : Parcela).tipo = none ∧
    ({ rc := some "XX" } : Parcela).regiones = none ∧
    ({ rc := some "XX" } : Parcela).superficie = none := by
  exact ⟨rfl, rfl, rfl, rfl⟩

/-- C6. A polygon-coordinate lookup whose descriptive record classifies as
Urban: `__init__` presets `poligono` and `parcela` from the inputs before
delegating, and the urban branch then also populates the urban group, so
the resolved parcel carries both variant field groups at once. -/
theorem c6_both_variant_groups_populated :
    (parcela_init envPppUrb
        { provincia := some "MADRID", municipio := some "MADRID", poligono := some "7",
          parcela := some "9" } "EPSG:4326").map
        (fun p => (p.tipo, p.poligono, p.parcela, p.calle, p.numero)) =
      Except.ok (some "Urbano", some (Json.str "7"), some (Json.str "9"),
        some "CL GRAN VIA", some (Json.str "1")) := by
  exact rfl

/-- C9. An address lookup that passes the error check with ambiguity counter
1 and carries the umbrella-list success shape naming `RC1`: the canonical
source dies with the uncaught `NameError` on `req1` before extracting any
identifier, even though delegating to the single-entity resolver with the
listed identifier would have succeeded. -/
theorem c9_address_shape_extraction_namerror :
    parcela_init envLoc1
      { provincia := some "MADRID", municipio := some "MADRID", tipo_via := some "CL",
        calle := some "GRAN VIA", numero := some "1" } "EPSG:4326" =
      Except.error (PyErr.nameErr "req1") ∧
    parcela_init envLoc1 { rc := some "RC1" } "EPSG:4326" = Except.ok pW := by
  exact ⟨rfl, rfl⟩

/-- C10 counterexample. The collection constructor `meta_init` takes no
reference-system argument at all (its type lists only the input groups), and
a collection construction attempt proceeds straight to the lookup: the
failure below comes from the lookup stage (empty upstream body), not from
any `UnsupportedReferenceSystem` validation. -/
theorem c10_counterexample_meta_no_crs_gate :
    meta_init envW { rc := some "NOPE" } = Except.error (PyErr.catastro vaciaMsg) ∧
    PyErr.catastro vaciaMsg ≠ PyErr.unsupportedRef := by
  exact ⟨rfl, by decide⟩

/-- C10 (amended). The single-entity constructor accepts the target
reference system and, when it is outside the fixed supported set, fails with
the unsupported-reference-system `ValueError` before any lookup: the
quantification over every environment shows no collaborator is consulted.
The collection constructor (`meta_init`) accepts no reference-system
parameter at all and performs no such validation (its counterexample). -/
theorem c10_amended_single_entity_crs_gate (env : Env) (a : ParcelaArgs)
    (projection : String) (h : projection ∉ listar_sistemas_referencia) :
    parcela_init env a projection = Except.error PyErr.unsupportedRef := by
  unfold parcela_init
  rw [if_pos h]
  rfl

/-- Witness for the amended C10 at a concrete unsupported system. -/
theorem c10_amended_witness :
    parcela_init envW {} "EPSG:9999" = Except.error PyErr.unsupportedRef :=
  c10_amended_single_entity_crs_gate envW {} "EPSG:9999" (by decide)

/-- C7. For a resolved parcel with a boundary ring of L points (L at least
3) the edge-distance property yields exactly L distances — one per adjacent
pair, wrapping the last point back to the first — and the perimeter is
their sum; for an empty ring both properties are `None`.  `dist` is the
great-circle helper composition (external to `src/`), universally
quantified. -/
theorem c7_edges_and_perimeter (dist : Coord → Coord → PyNum) (p : Parcela) :
    (∀ g, p.geometria = some g → 3 ≤ g.length →
      ∃ ds, distancias_aristas dist p = Except.ok (some ds) ∧ ds.length = g.length ∧
        perimetro dist p = Except.ok (some (ds.foldl PyNum.add (PyNum.ofInt 0)))) ∧
    (p.geometria = some [] →
      distancias_aristas dist p = Except.ok none ∧ perimetro dist p = Except.ok none) := by
  constructor
  · intro g hg hlen
    have hne : ¬ g.length = 0 := by omega
    have hda : distancias_aristas dist p = Except.ok (some (edge_list dist g)) := by
      simp [distancias_aristas, hg, hne]
    have hlen2 : (edge_list dist g).length = g.length := by
      simp [edge_list]
    refine ⟨edge_list dist g, hda, hlen2, ?_⟩
    have hne2 : ¬ (edge_list dist g).length = 0 := by omega
    unfold perimetro
    rw [hda, ok_bind]
    simp [hne2]
    rfl
  · intro hg
    have hda : distancias_aristas dist p = Except.ok none := by
      simp [distancias_aristas, hg]
    refine ⟨hda, ?_⟩
    unfold perimetro
    rw [hda, ok_bind]
    rfl

/-- A resolved parcel whose ring is empty (only the fields the statement
reads matter). -/
def pEmptyRing : Parcela := { geometria := some [] }

/-- Witness for C7: the three-point ring of `pW` yields three distances
whose sum is the perimeter, and the empty ring yields `None` twice. -/
theorem c7_witness :
    (∃ ds, distancias_aristas (fun _ _ => PyNum.ofInt 1) pW = Except.ok (some ds) ∧
      ds.length = 3 ∧
      perimetro (fun _ _ => PyNum.ofInt 1) pW =
        Except.ok (some (ds.foldl PyNum.add (PyNum.ofInt 0)))) ∧
    distancias_aristas (fun _ _ => PyNum.ofInt 1) pEmptyRing = Except.ok none ∧
    perimetro (fun _ _ => PyNum.ofInt 1) pEmptyRing = Except.ok none := by
  constructor
  · exact (c7_edges_and_perimeter (fun _ _ => PyNum.ofInt 1) pW).1
      [Coord.mk "0" "0", Coord.mk "1" "0", Coord.mk "1" "1"] rfl (by decide)
  · exact (c7_edges_and_perimeter (fun _ _ => PyNum.ofInt 1) pEmptyRing).2 rfl

/-- C4 counterexample. On the empty envelope (decoded body `{}`) the
classifier does not return `True`: it falls off the function and returns
`None` (falsy), against the claim that every non-raising case returns
true. -/
theorem c4_counterexample_empty_envelope :
    comprobar_errores (Json.obj []) = Except.ok none ∧
    (Except.ok (none : Option Bool) : Except PyErr (Option Bool)) ≠
      Except.ok (some true) := by
  exact ⟨rfl, by decide⟩

theorem lookup_none_any {k : String} {fs : List (String × Json)}
    (h : fs.lookup k = none) : fs.any (fun p => p.1 = k) = false := by
  induction fs with
  | nil => rfl
  | cons hd tl ih =>
    rw [List.lookup] at h
    by_cases hk : (k == hd.1) = true
    · rw [hk] at h
      exact absurd h (by simp)
    · rw [Bool.not_eq_true] at hk
      rw [hk] at h
      have htl := ih h
      have hne : ¬ hd.1 = k := by
        intro he
        rw [he] at hk
        simp at hk
      simp [List.any, htl, hne]

theorem lookup_some_any {k : String} {fs : List (String × Json)} {v : Json}
    (h : fs.lookup k = some v) : fs.any (fun p => p.1 = k) = true := by
  induction fs with
  | nil => exact absurd h (by simp [List.lookup])
  | cons hd tl ih =>
    rw [List.lookup] at h
    by_cases hk : (k == hd.1) = true
    · have : hd.1 = k := (beq_iff_eq.mp hk).symm
      simp [List.any, this]
    · rw [Bool.not_eq_true] at hk
      rw [hk] at h
      simp [List.any, ih h]

/-- C4 (amended).  Characterization of the classifier over envelopes (a
mapping whose first value, when present, is either absent/`None` or a
mapping, as the spec describes): it raises the classified business failure
carrying the first error's description — nested `err` location before the
flat-list location, both folded into `lerr_message` — exactly when the
first top-level value is present and has the error-list field; it returns
true when the envelope is non-empty and the first value is absent or lacks
that field; and on an empty envelope it returns `None` (falsy), not true. -/
theorem c4_amended_classifier (k : String) (rest : List (String × Json)) :
    comprobar_errores (Json.obj []) = Except.ok none ∧
    comprobar_errores (Json.obj ((k, Json.null) :: rest)) = Except.ok (some true) ∧
    (∀ fs, fs.lookup "lerr" = none →
      comprobar_errores (Json.obj ((k, Json.obj fs) :: rest)) = Except.ok (some true)) ∧
    (∀ fs lv, fs.lookup "lerr" = some lv →
      comprobar_errores (Json.obj ((k, Json.obj fs) :: rest)) =
        (lerr_message lv >>= fun m => Except.error (PyErr.upstream m))) := by
  refine ⟨rfl, rfl, ?_, ?_⟩
  · intro fs h
    have hany := lookup_none_any h
    simp [comprobar_errores, Json.valuesList, Json.isNull, Json.keysHas, hany,
      ok_bind, pure_eq_ok]
  · intro fs lv h
    have hany := lookup_some_any h
    simp [comprobar_errores, Json.valuesList, Json.isNull, Json.keysHas, hany,
      Json.idxKey, h, ok_bind, throw_eq_error]

/-- Witness for the amended C4: a raising envelope with a flat error list
carrying a description, and a non-raising one whose first value lacks the
error-list field. -/
theorem c4_amended_witness :
    comprobar_errores (Json.obj [("r",
        Json.obj [("lerr", Json.arr [Json.obj [("des", Json.str "boom")]])])]) =
      Except.error (PyErr.upstream (Json.str "boom")) ∧
    comprobar_errores (Json.obj [("r", Json.obj [("x", Json.null)])]) =
      Except.ok (some true) := by
  have h := c4_amended_classifier "r" ([] : List (String × Json))
  constructor
  · rw [h.2.2.2 [("lerr", Json.arr [Json.obj [("des", Json.str "boom")]])]
      (Json.arr [Json.obj [("des", Json.str "boom")]]) rfl]
    rfl
  · exact h.2.2.1 [("x", Json.null)] rfl

/-- Every branch of the address path's `elif`/`else` block raises. -/
theorem addr_elif_not_ok (raw : Raw) (p : Parcela) : addr_elif raw ≠ Except.ok p := by
  intro h
  unfold addr_elif at h
  obtain ⟨parsed, hp, h⟩ := bind_ok h
  obtain ⟨v, hv, h⟩ := bind_ok h
  obtain ⟨hl, hh, h⟩ := bind_ok h
  cases hl with
  | false => simp [throw_eq_error] at h
  | true =>
    simp only [if_true] at h
    obtain ⟨l1, hl1, h⟩ := bind_ok h
    obtain ⟨l2, hl2, h⟩ := bind_ok h
    obtain ⟨l3, hl3, h⟩ := bind_ok h
    obtain ⟨cod, hcod, h⟩ := bind_ok h
    cases hc : cod.eqStr "43"
    · rw [hc] at h
      simp [throw_eq_error] at h
    · rw [hc] at h
      simp only [if_true] at h
      obtain ⟨n1, hn1, h⟩ := bind_ok h
      obtain ⟨n2, hn2, h⟩ := bind_ok h
      obtain ⟨nump, hnump, h⟩ := bind_ok h
      obtain ⟨items, hitems, h⟩ := bind_ok h
      obtain ⟨nums, hnums, h⟩ := bind_ok h
      simp [throw_eq_error] at h

/-- The canonical address strategy never returns an object: the unbound
`req1` kills the success branch and every other branch raises. -/
theorem create_from_address_not_ok (env : Env) (self : Parcela)
    (pr mu tv ca nu proj : String) (p : Parcela) :
    create_from_address env self pr mu tv ca nu proj ≠ Except.ok p := by
  intro h
  unfold create_from_address at h
  obtain ⟨ic, hic, h⟩ := bind_ok h
  obtain ⟨cond, hcond, h⟩ := bind_ok h
  cases cond with
  | true => simp [throw_eq_error] at h
  | false =>
    simp only [Bool.false_eq_true, if_false] at h
    exact addr_elif_not_ok _ p h

/-- Extraction from a successful `__create_from_rc` run that populated the
payload (a never-assigned variant tag identifies the fall-through). -/
theorem create_from_rc_ok {env : Env} {self : Parcela} {rc proj : String} {p : Parcela}
    (h : create_from_rc env self rc proj = Except.ok p)
    (hself : self.tipo = none) (ht : p.tipo ≠ none) :
    ∃ info chk d, env.dnprc rc = Raw.json info ∧
      comprobar_errores info = Except.ok chk ∧ truthyOpt chk = true ∧
      resolve_delta env info proj = Except.ok d ∧ p = apply_resolved self d := by
  unfold create_from_rc at h
  split at h
  · simp [throw_eq_error] at h
  · simp [throw_eq_error] at h
  · rename_i info heq
    obtain ⟨chk, hchk, h⟩ := bind_ok h
    cases htr : truthyOpt chk
    · rw [htr] at h
      simp only [Bool.false_eq_true, if_false, pure_eq_ok] at h
      have hps := Except.ok.inj h
      rw [← hps] at ht
      exact absurd hself ht
    · rw [htr] at h
      simp only [if_true] at h
      obtain ⟨d, hd, h⟩ := bind_ok h
      rw [pure_eq_ok] at h
      exact ⟨info, chk, d, heq, hchk, htr, hd, (Except.ok.inj h).symm⟩

/-- Extraction from a successful pass through the ambiguity gate and
identifier re-derivation. -/
theorem resolve_delta_ok {env : Env} {info : Json} {proj : String} {d : ResolvedFields}
    (h : resolve_delta env info proj = Except.ok d) :
    ∃ cq, cudnp_counter info "consulta_dnprcResult" = Except.ok cq ∧
      PyNum.lt (PyNum.ofInt 1) cq = false ∧
      derive_rc info "consulta_dnprcResult" = Except.ok d.rcNew ∧
      resolve_rest env info proj d.rcNew = Except.ok d.rest ∧
      d.url = env.croquis d.rcNew := by
  unfold resolve_delta at h
  obtain ⟨cq, hcq, h⟩ := bind_ok h
  cases hlt : PyNum.lt (PyNum.ofInt 1) cq
  · rw [hlt] at h
    simp only [Bool.false_eq_true, if_false] at h
    obtain ⟨rcNew, hrc, h⟩ := bind_ok h
    obtain ⟨rest, hrest, h⟩ := bind_ok h
    rw [pure_eq_ok] at h
    have hd := Except.ok.inj h
    subst hd
    exact ⟨cq, hcq, hlt, hrc, hrest, rfl⟩
  · rw [hlt] at h
    simp [throw_eq_error] at h

/-- Extraction of the two surface aliases: both are the fold of the parsed
surfaces of the regions the run stored. -/
theorem resolve_rest_ok {env : Env} {info : Json} {proj rcNew : String} {r : RestFields}
    (h : resolve_rest env info proj rcNew = Except.ok r) :
    ∃ sups, r.regiones.mapM (fun rg => pyFloat rg.superficie) = Except.ok sups ∧
      r.superficie_construida = sups.foldl PyNum.add (PyNum.ofInt 0) ∧
      r.superficie = sups.foldl PyNum.add (PyNum.ofInt 0) := by
  unfold resolve_rest at h
  obtain ⟨mun, h1, h⟩ := bind_ok h
  obtain ⟨prov, h2, h⟩ := bind_ok h
  obtain ⟨cn, h3, h⟩ := bind_ok h
  obtain ⟨vf, h4, h⟩ := bind_ok h
  obtain ⟨regs, h5, h⟩ := bind_ok h
  obtain ⟨geo, h6, h⟩ := bind_ok h
  obtain ⟨sups, h7, h⟩ := bind_ok h
  obtain ⟨sups2, h8, h⟩ := bind_ok h
  rw [pure_eq_ok] at h
  have hr := Except.ok.inj h
  subst hr
  have hs : sups2 = sups := by
    rw [h7] at h8
    exact (Except.ok.inj h8).symm
  exact ⟨sups, h7, rfl, by rw [hs]⟩

/-- A successful polygon-coordinate construction that populated the payload
delegates to `__create_from_rc` with the identifier the code lookup
resolved. -/
theorem create_from_parcel_ok {env : Env} {self : Parcela} {pr mu po pa proj : String}
    {p : Parcela} (h : create_from_parcel env self pr mu po pa proj = Except.ok p)
    (hself : self.tipo = none) (ht : p.tipo ≠ none) :
    ∃ self2 rc2, self2.tipo = none ∧ create_from_rc env self2 rc2 proj = Except.ok p := by
  unfold create_from_parcel at h
  split at h
  · simp [throw_eq_error] at h
  · simp [throw_eq_error] at h
  · rename_i info heq
    obtain ⟨chk, hchk, h⟩ := bind_ok h
    cases htr : truthyOpt chk
    · rw [htr] at h
      simp only [Bool.false_eq_true, if_false, pure_eq_ok] at h
      have hps := Except.ok.inj h
      rw [← hps] at ht
      exact absurd hself ht
    · rw [htr] at h
      simp only [if_true] at h
      obtain ⟨cq, hcq, h⟩ := bind_ok h
      cases hlt : PyNum.lt (PyNum.ofInt 1) cq
      · rw [hlt] at h
        simp only [Bool.false_eq_true, if_false] at h
        obtain ⟨rcNew, hrc, h⟩ := bind_ok h
        exact ⟨{ self with rc := some rcNew }, rcNew, hself, h⟩
      · rw [hlt] at h
        simp [throw_eq_error] at h

/-- Every successful construction that populated the payload went through
`__create_from_rc` starting from a state with no variant tag. -/
theorem parcela_init_ok {env : Env} {a : ParcelaArgs} {proj : String} {p : Parcela}
    (h : parcela_init env a proj = Except.ok p) (ht : p.tipo ≠ none) :
    ∃ self2 rc2, self2.tipo = none ∧ create_from_rc env self2 rc2 proj = Except.ok p := by
  unfold parcela_init at h
  split at h
  · simp [throw_eq_error] at h
  · split at h
    · exact ⟨_, _, rfl, h⟩
    · split at h
      · exact create_from_parcel_ok h rfl ht
      · split at h
        · exact absurd h (create_from_address_not_ok _ _ _ _ _ _ _ _ _)
        · simp [throw_eq_error] at h

/-- C5. Every successfully resolved parcel (under any strategy; the
never-assigned variant tag excludes the classifier fall-through) stores, as
both surface aliases, exactly the sum of its regions' surfaces parsed as
numbers: `sum(region.superficie) == superficie_construida == superficie`. -/
theorem c5_surface_aliases (env : Env) (a : ParcelaArgs) (proj : String) (p : Parcela)
    (h : parcela_init env a proj = Except.ok p) (ht : p.tipo ≠ none) :
    ∃ regs sups, p.regiones = some regs ∧
      regs.mapM (fun rg => pyFloat rg.superficie) = Except.ok sups ∧
      p.superficie_construida = some (sups.foldl PyNum.add (PyNum.ofInt 0)) ∧
      p.superficie = p.superficie_construida := by
  obtain ⟨self2, rc2, hs2, hrc⟩ := parcela_init_ok h ht
  obtain ⟨info, chk, d, henv, hchk, htr, hd, hp⟩ := create_from_rc_ok hrc hs2 ht
  obtain ⟨cq, hcq, hlt, hder, hrest, hurl⟩ := resolve_delta_ok hd
  obtain ⟨sups, hmap, hsc, hs⟩ := resolve_rest_ok hrest
  refine ⟨d.rest.regiones, sups, ?_, hmap, ?_, ?_⟩
  · rw [hp]
    rfl
  · rw [hp]
    show some d.rest.superficie_construida = some (sups.foldl PyNum.add (PyNum.ofInt 0))
    rw [hsc]
  · rw [hp]
    show some d.rest.superficie = some d.rest.superficie_construida
    rw [hs, hsc]

/-- Witness for C5 at the concrete urban resolution of `envW`. -/
theorem c5_witness :
    ∃ regs sups, pW.regiones = some regs ∧
      regs.mapM (fun rg => pyFloat rg.superficie) = Except.ok sups ∧
      pW.superficie_construida = some (sups.foldl PyNum.add (PyNum.ofInt 0)) ∧
      pW.superficie = pW.superficie_construida :=
  c5_surface_aliases envW { rc := some "RC1" } "EPSG:4326" pW rfl (by decide)

/-- C8. An identifier lookup that resolves (with a populated payload)
stores as its identifier exactly the canonical identifier re-derived from
the payload (the concatenation of the `rc` components), and — provided the
service answers the re-derived identifier with the same envelope, which is
what makes it canonical — resolving again by the stored identifier
reproduces the very same object: same variant tag, same field set. -/
theorem c8_idempotent_canonical_rc (env : Env) (rcv proj : String) (p : Parcela)
    (h : parcela_init env { rc := some rcv } proj = Except.ok p)
    (ht : p.tipo ≠ none)
    (hsvc : ∀ s, p.rc = some s → s ≠ "" ∧ env.dnprc s = env.dnprc rcv) :
    ∃ rcNew info, p.rc = some rcNew ∧ env.dnprc rcv = Raw.json info ∧
      derive_rc info "consulta_dnprcResult" = Except.ok rcNew ∧
      parcela_init env { rc := some rcNew } proj = Except.ok p := by
  unfold parcela_init at h
  split at h
  case isTrue => simp [throw_eq_error] at h
  case isFalse hproj =>
    split at h
    case isFalse htr =>
      split at h
      · rename_i hand
        simp [truthyStr] at hand
      · split at h
        · rename_i hand
          simp [truthyStr] at hand
        · simp [throw_eq_error] at h
    case isTrue htr =>
      obtain ⟨info, chk, d, henv, hchk, htrr, hd, hp⟩ := create_from_rc_ok h rfl ht
      have henv' : env.dnprc rcv = Raw.json info := henv
      obtain ⟨cq, hcq, hlt, hder, hrest, hurl⟩ := resolve_delta_ok hd
      have hprc : p.rc = some d.rcNew := by
        rw [hp]
        rfl
      obtain ⟨hne, henv2⟩ := hsvc d.rcNew hprc
      refine ⟨d.rcNew, info, hprc, henv', hder, ?_⟩
      unfold parcela_init
      rw [if_neg hproj]
      rw [if_pos (show truthyStr (some d.rcNew) = true by simp [truthyStr, hne])]
      show create_from_rc env { rc := some d.rcNew } d.rcNew proj = Except.ok p
      unfold create_from_rc
      rw [henv2, henv']
      simp only [hchk, ok_bind]
      rw [htrr]
      simp only [if_true, hd, ok_bind, pure_eq_ok]
      rw [hp]
      rfl

/-- Witness for C8: the `RC1` lookup of `envW`, whose payload re-derives
exactly `RC1`, so the service-consistency hypothesis holds trivially. -/
theorem c8_witness :
    ∃ rcNew info, pW.rc = some rcNew ∧ envW.dnprc "RC1" = Raw.json info ∧
      derive_rc info "consulta_dnprcResult" = Except.ok rcNew ∧
      parcela_init envW { rc := some rcNew } "EPSG:4326" = Except.ok pW := by
  refine c8_idempotent_canonical_rc envW "RC1" "EPSG:4326" pW rfl (by decide) ?_
  intro s hs
  have h2 : some "RC1" = some s := hs
  have h3 : s = "RC1" := (Option.some.inj h2).symm
  subst h3
  exact ⟨by decide, rfl⟩
